import Mathlib

/-!
# Verification of the kepler eBPF probe core (src/bpf/kepler.bpf.c, kepler.bpf.h)

A shallow embedding of the in-kernel collector: BPF maps become partial
functions `Nat → Option α`, u64/u16 arithmetic is `Nat` with explicit
`% 2^64` / `% 2^16` where the C code can wrap, hardware reads that may
fail become `Option Nat` inputs, and each probe handler becomes a pure
state-transition function.  Definitions are translated from the source
files; theorems settle the specification's claims about them.
-/

namespace Kepler

/-- 2^64, the modulus of C `u64` arithmetic. -/
def U64_MOD : Nat := 18446744073709551616

/-- 2^16, the modulus of C `u16` arithmetic (the `vec_nr` cells). -/
def U16_MOD : Nat := 65536

/-- BPF map update (`bpf_map_update_elem` with `BPF_ANY`): insert or overwrite. -/
def mapUpdate {α : Type} (m : Nat → Option α) (k : Nat) (v : α) : Nat → Option α :=
  fun k2 => if k2 = k then some v else m k2

/-- BPF map deletion (`bpf_map_delete_elem`). -/
def mapDelete {α : Type} (m : Nat → Option α) (k : Nat) : Nat → Option α :=
  fun k2 => if k2 = k then none else m k2

/-- `calc_delta` from src/bpf/kepler.bpf.c lines 69-78: if a previous value
exists and `val > *prev_val`, return `val - *prev_val` (u64 arithmetic),
else return 0. -/
def calc_delta (prev_val : Option Nat) (val : Nat) : Nat :=
  match prev_val with
  | none => 0
  | some p => if p < val then (val - p) % U64_MOD else 0

/-- `get_on_cpu_elapsed_time_us` from src/bpf/kepler.bpf.c lines 80-92:
look up `pid_time_map[prev_pid]`; when present, compute
`calc_delta(prev_ts, curr_ts) / 1000` and delete the entry; when absent,
return 0 with the map untouched.  Returns (cpu_time, updated map). -/
def get_on_cpu_elapsed_time_us (pid_time_map : Nat → Option Nat)
    (prev_pid curr_ts : Nat) : Nat × (Nat → Option Nat) :=
  match pid_time_map prev_pid with
  | some prev_ts =>
      (calc_delta (some prev_ts) curr_ts / 1000, mapDelete pid_time_map prev_pid)
  | none => (0, pid_time_map)

/-- `get_on_cpu_cycles` from src/bpf/kepler.bpf.c lines 94-111.  The hardware
read `bpf_perf_event_read_value` is modelled as the `read` input: `none` is a
read error (return 0, baseline untouched); `some val` is a successful read of
`c.counter`.  Returns (delta, updated `cpu_cycles` baseline map). -/
def get_on_cpu_cycles (cpu_cycles : Nat → Option Nat) (cpu_id : Nat)
    (read : Option Nat) : Nat × (Nat → Option Nat) :=
  match read with
  | none => (0, cpu_cycles)
  | some val => (calc_delta (cpu_cycles cpu_id) val, mapUpdate cpu_cycles cpu_id val)

/-- `get_on_cpu_instr` from src/bpf/kepler.bpf.c lines 113-130 (same shape as
`get_on_cpu_cycles`, on the `cpu_instructions` map). -/
def get_on_cpu_instr (cpu_instructions : Nat → Option Nat) (cpu_id : Nat)
    (read : Option Nat) : Nat × (Nat → Option Nat) :=
  match read with
  | none => (0, cpu_instructions)
  | some val =>
      (calc_delta (cpu_instructions cpu_id) val, mapUpdate cpu_instructions cpu_id val)

/-- `get_on_cpu_cache_miss` from src/bpf/kepler.bpf.c lines 132-148 (same
shape, on the `cache_miss` map). -/
def get_on_cpu_cache_miss (cache_miss : Nat → Option Nat) (cpu_id : Nat)
    (read : Option Nat) : Nat × (Nat → Option Nat) :=
  match read with
  | none => (0, cache_miss)
  | some val => (calc_delta (cache_miss cpu_id) val, mapUpdate cache_miss cpu_id val)

/-- `process_metrics_t` from src/bpf/kepler.bpf.h lines 93-103: the value
type of the `processes` LRU hash map that user space reads.  `vec_nr` is a
10-cell u16 array, `comm` a 16-byte character array; both are lists whose
lengths are fixed by every writer in the code. -/
structure process_metrics_t where
  cgroup_id : Nat
  pid : Nat
  process_run_time : Nat
  cpu_cycles : Nat
  cpu_instr : Nat
  cache_miss : Nat
  page_cache_hit : Nat
  vec_nr : List Nat
  comm : List Nat
deriving DecidableEq

/-- `register_new_process_if_not_exist` from src/bpf/kepler.bpf.h lines
264-286 (the .c variant at lines 150-173 is identical except that it derives
`tgid` from `bpf_get_current_pid_tgid()`, here a parameter): if
`processes[tgid]` exists, do nothing; otherwise insert a fresh entry with
`pid = tgid`, the current cgroup id, the current comm, and all counters
zero-initialised. -/
def register_new_process_if_not_exist (processes : Nat → Option process_metrics_t)
    (tgid cgroup_id : Nat) (comm : List Nat) : Nat → Option process_metrics_t :=
  match processes tgid with
  | some _ => processes
  | none =>
      mapUpdate processes tgid
        { cgroup_id := cgroup_id, pid := tgid, process_run_time := 0,
          cpu_cycles := 0, cpu_instr := 0, cache_miss := 0, page_cache_hit := 0,
          vec_nr := List.replicate 10 0, comm := comm }

/-- The mutable BPF map state of the program: the `processes` and
`pid_time_map` LRU hashes, the three per-CPU baseline arrays, and the global
`counter_sched_switch` used by the sampling knob. -/
structure BpfState where
  processes : Nat → Option process_metrics_t
  pid_time_map : Nat → Option Nat
  cpu_cycles : Nat → Option Nat
  cpu_instructions : Nat → Option Nat
  cache_miss : Nat → Option Nat
  counter_sched_switch : Nat

/-- The stack buffer `buf` filled by `collect_metrics_and_reset_counters`. -/
structure MetricsBuf where
  cpu_cycles : Nat
  cpu_instr : Nat
  cache_miss : Nat
  process_run_time : Nat
deriving DecidableEq

/-- `collect_metrics_and_reset_counters` from src/bpf/kepler.bpf.c lines
175-183: read the three counters (advancing each per-CPU baseline) and take
the departing task's elapsed on-CPU time (consuming its `pid_time_map`
entry).  The three hardware reads are the `Option Nat` inputs. -/
def collect_metrics_and_reset_counters (s : BpfState)
    (prev_pid curr_ts cpu_id : Nat)
    (read_cycles read_instr read_cache : Option Nat) : MetricsBuf × BpfState :=
  let rc := get_on_cpu_cycles s.cpu_cycles cpu_id read_cycles
  let ri := get_on_cpu_instr s.cpu_instructions cpu_id read_instr
  let rm := get_on_cpu_cache_miss s.cache_miss cpu_id read_cache
  let rt := get_on_cpu_elapsed_time_us s.pid_time_map prev_pid curr_ts
  ({ cpu_cycles := rc.1, cpu_instr := ri.1, cache_miss := rm.1,
     process_run_time := rt.1 },
   { s with cpu_cycles := rc.2, cpu_instructions := ri.2, cache_miss := rm.2,
            pid_time_map := rt.2 })

/-- `kepler_sched_switch_trace` from src/bpf/kepler.bpf.c lines 190-247.
Environment inputs that the kernel supplies become parameters: the departing
and arriving pids, the departing tgid, `bpf_ktime_get_ns()` (`curr_ts`),
`bpf_get_smp_processor_id()` (`cpu_id`), the three hardware reads, and the
current task's tgid / cgroup id / comm used by
`register_new_process_if_not_exist`.  `SAMPLE_RATE` is the read-only config
constant.  Order of operations follows the source: collect metrics first,
then the sampling skip, then the conditional attribution to
`processes[prev_tgid]`, then the arriving task's timestamp, then process
registration. -/
def kepler_sched_switch_trace (SAMPLE_RATE : Nat) (s : BpfState)
    (prev_pid next_pid prev_tgid curr_ts cpu_id : Nat)
    (read_cycles read_instr read_cache : Option Nat)
    (curr_tgid cgroup_id : Nat) (comm : List Nat) : BpfState :=
  let r := collect_metrics_and_reset_counters s prev_pid curr_ts cpu_id
             read_cycles read_instr read_cache
  let buf := r.1
  let s1 := r.2
  if SAMPLE_RATE > 0 ∧ s1.counter_sched_switch > 0 then
    { s1 with counter_sched_switch := s1.counter_sched_switch - 1 }
  else
    let s2 := if SAMPLE_RATE > 0 then { s1 with counter_sched_switch := SAMPLE_RATE }
              else s1
    let s3 :=
      if buf.process_run_time > 0 then
        match s2.processes prev_tgid with
        | some pm =>
            let pm2 : process_metrics_t :=
              { pm with
                process_run_time :=
                  (pm.process_run_time + buf.process_run_time) % U64_MOD,
                cpu_cycles := (pm.cpu_cycles + buf.cpu_cycles) % U64_MOD,
                cpu_instr := (pm.cpu_instr + buf.cpu_instr) % U64_MOD,
                cache_miss := (pm.cache_miss + buf.cache_miss) % U64_MOD }
            { s2 with processes := mapUpdate s2.processes prev_tgid pm2 }
        | none => s2
      else s2
    let s4 := { s3 with pid_time_map := mapUpdate s3.pid_time_map next_pid curr_ts }
    { s4 with processes :=
        register_new_process_if_not_exist s4.processes curr_tgid cgroup_id comm }

/-- `kepler_irq_trace` from src/bpf/kepler.bpf.c lines 249-262: on
softirq_entry with vector `vec`, if the current tgid has a `processes` entry
and `vec < 10`, increment its `vec_nr[vec]` (u16 arithmetic); otherwise
change nothing. -/
def kepler_irq_trace (processes : Nat → Option process_metrics_t)
    (curr_tgid vec : Nat) : Nat → Option process_metrics_t :=
  match processes curr_tgid with
  | some pm =>
      if vec < 10 then
        mapUpdate processes curr_tgid
          { pm with vec_nr := pm.vec_nr.set vec ((pm.vec_nr.getD vec 0 + 1) % U16_MOD) }
      else processes
  | none => processes

/-- Round `off` up to the next multiple of alignment `a` (C struct layout). -/
def alignUp (off a : Nat) : Nat := ((off + a - 1) / a) * a

/-- (size, alignment) in bytes of each field of `process_metrics_t`, in
declaration order from src/bpf/kepler.bpf.h lines 93-103: seven u64 scalars,
`u16 vec_nr[10]`, `char comm[16]`. -/
def process_metrics_field_sizes : List (Nat × Nat) :=
  [(8, 8), (8, 8), (8, 8), (8, 8), (8, 8), (8, 8), (8, 8), (20, 2), (16, 1)]

/-- Byte offset of each field under the C layout rules. -/
def layoutOffsets : List (Nat × Nat) → Nat → List Nat
  | [], _ => []
  | (sz, al) :: rest, off =>
      let o := alignUp off al
      o :: layoutOffsets rest (o + sz)

/-- End offset of the last field under the C layout rules. -/
def layoutEnd : List (Nat × Nat) → Nat → Nat
  | [], off => off
  | (sz, al) :: rest, off => layoutEnd rest (alignUp off al + sz)

/-- Field offsets of `process_metrics_t`. -/
def process_metrics_offsets : List Nat := layoutOffsets process_metrics_field_sizes 0

/-- Alignment of `process_metrics_t` (largest member alignment: u64). -/
def process_metrics_align : Nat := 8

/-- `sizeof(process_metrics_t)`: end of last field rounded up to alignment. -/
def process_metrics_size : Nat :=
  alignUp (layoutEnd process_metrics_field_sizes 0) process_metrics_align

/-- The baseline map after a sequence of successful `get_on_cpu_cycles`
calls on one CPU, one call per listed hardware read. -/
def run_on_cpu_cycles_reads (baseline : Nat → Option Nat) (cpu_id : Nat)
    (reads : List Nat) : Nat → Option Nat :=
  reads.foldl (fun m v => (get_on_cpu_cycles m cpu_id (some v)).2) baseline

/-- The baseline map after a sequence of successful `get_on_cpu_instr`
calls on one CPU. -/
def run_on_cpu_instr_reads (baseline : Nat → Option Nat) (cpu_id : Nat)
    (reads : List Nat) : Nat → Option Nat :=
  reads.foldl (fun m v => (get_on_cpu_instr m cpu_id (some v)).2) baseline

/-- The baseline map after a sequence of successful `get_on_cpu_cache_miss`
calls on one CPU. -/
def run_on_cpu_cache_miss_reads (baseline : Nat → Option Nat) (cpu_id : Nat)
    (reads : List Nat) : Nat → Option Nat :=
  reads.foldl (fun m v => (get_on_cpu_cache_miss m cpu_id (some v)).2) baseline

/-- A sequence of `get_on_cpu_elapsed_time_us` calls for one tid with no
intervening insertion into `pid_time_map`: returns the list of elapsed-time
results and the final map. -/
def take_seq (m : Nat → Option Nat) (tid : Nat) (nows : List Nat) :
    List Nat × (Nat → Option Nat) :=
  match nows with
  | [] => ([], m)
  | now :: rest =>
      let r := get_on_cpu_elapsed_time_us m tid now
      let rr := take_seq r.2 tid rest
      (r.1 :: rr.1, rr.2)

end Kepler

namespace Kepler

/-- First claim: `calc_delta` returns `val - prev` exactly when a previous
value exists and `val > prev`, and 0 in every other case; the result is a
valid (non-negative) u64. -/
theorem calc_delta_spec (prev : Option Nat) (val : Nat) (hval : val < U64_MOD) :
    (∀ p, prev = some p → p < val → calc_delta prev val = val - p) ∧
    (∀ p, prev = some p → val ≤ p → calc_delta prev val = 0) ∧
    (prev = none → calc_delta prev val = 0) ∧
    calc_delta prev val < U64_MOD := by
  refine ⟨?_, ?_, ?_, ?_⟩
  · intro p hp hlt
    subst hp
    have hsub : val - p < U64_MOD := lt_of_le_of_lt (Nat.sub_le _ _) hval
    simp [calc_delta, hlt, Nat.mod_eq_of_lt hsub]
  · intro p hp hle
    subst hp
    simp [calc_delta, Nat.not_lt.mpr hle]
  · intro hp
    subst hp
    rfl
  · cases prev with
    | none => exact Nat.pos_of_ne_zero (by decide)
    | some p =>
      by_cases hlt : p < val
      · have hsub : val - p < U64_MOD := lt_of_le_of_lt (Nat.sub_le _ _) hval
        simpa [calc_delta, hlt, Nat.mod_eq_of_lt hsub] using hsub
      · simp only [calc_delta, if_neg hlt]
        exact Nat.pos_of_ne_zero (by decide)

/-- Witness for `calc_delta_spec` at prev = some 3, val = 10. -/
theorem calc_delta_spec_witness :
    (10 : Nat) < U64_MOD ∧
    ((∀ p, (some 3 : Option Nat) = some p → p < 10 → calc_delta (some 3) 10 = 10 - p) ∧
     (∀ p, (some 3 : Option Nat) = some p → 10 ≤ p → calc_delta (some 3) 10 = 0) ∧
     ((some 3 : Option Nat) = none → calc_delta (some 3) 10 = 0) ∧
     calc_delta (some 3) 10 < U64_MOD) :=
  ⟨by decide, calc_delta_spec (some 3) 10 (by decide)⟩

theorem mapUpdate_self {α : Type} (m : Nat → Option α) (k : Nat) (v : α) :
    mapUpdate m k v k = some v := by
  simp [mapUpdate]

theorem mapUpdate_other {α : Type} (m : Nat → Option α) (k k2 : Nat) (v : α)
    (h : k2 ≠ k) : mapUpdate m k v k2 = m k2 := by
  simp [mapUpdate, h]

theorem mapDelete_self {α : Type} (m : Nat → Option α) (k : Nat) :
    mapDelete m k k = none := by
  simp [mapDelete]

theorem register_preserves_some (procs : Nat → Option process_metrics_t)
    (tgid cgroup_id k : Nat) (comm : List Nat) (pm : process_metrics_t)
    (h : procs k = some pm) :
    register_new_process_if_not_exist procs tgid cgroup_id comm k = some pm := by
  unfold register_new_process_if_not_exist
  cases htg : procs tgid with
  | some q => simpa using h
  | none =>
    by_cases hk : k = tgid
    · rw [hk] at h; rw [htg] at h; exact absurd h (by simp)
    · simpa [mapUpdate_other _ _ _ _ hk] using h

/-- Counterexample to the claim that on a clock anomaly
(`now <= on_cpu_since[tid]`) the entry is not removed: with
`pid_time_map = {1 ↦ 100}` and `now = 50`, the function returns 0 but the
entry for tid 1 is deleted. -/
theorem take_on_cpu_us_clock_anomaly_deletes :
    (get_on_cpu_elapsed_time_us (fun k => if k = 1 then some 100 else none) 1 50).1 = 0 ∧
    (fun k => if k = 1 then some 100 else none) 1 = some 100 ∧
    (get_on_cpu_elapsed_time_us (fun k => if k = 1 then some 100 else none) 1 50).2 1 =
      none := by
  refine ⟨rfl, rfl, rfl⟩

/-- Amended claim: when `on_cpu_since[tid]` exists and `now > prev`, return
`(now - prev) / 1000` and delete the entry; when the entry exists but
`now <= prev`, return 0 and STILL delete the entry; only when no entry
exists is the table left unchanged (returning 0). -/
theorem take_on_cpu_us_spec (m : Nat → Option Nat) (tid now : Nat)
    (hnow : now < U64_MOD) :
    (∀ ts, m tid = some ts → ts < now →
        (get_on_cpu_elapsed_time_us m tid now).1 = (now - ts) / 1000 ∧
        (get_on_cpu_elapsed_time_us m tid now).2 = mapDelete m tid) ∧
    (∀ ts, m tid = some ts → now ≤ ts →
        (get_on_cpu_elapsed_time_us m tid now).1 = 0 ∧
        (get_on_cpu_elapsed_time_us m tid now).2 = mapDelete m tid) ∧
    (m tid = none → get_on_cpu_elapsed_time_us m tid now = (0, m)) := by
  refine ⟨?_, ?_, ?_⟩
  · intro ts hts hlt
    have hsub : now - ts < U64_MOD := lt_of_le_of_lt (Nat.sub_le _ _) hnow
    simp [get_on_cpu_elapsed_time_us, hts, calc_delta, hlt, Nat.mod_eq_of_lt hsub]
  · intro ts hts hle
    simp [get_on_cpu_elapsed_time_us, hts, calc_delta, Nat.not_lt.mpr hle]
  · intro hts
    simp [get_on_cpu_elapsed_time_us, hts]

/-- Witness for `take_on_cpu_us_spec` with map `{1 ↦ 100}`, now = 2100100. -/
theorem take_on_cpu_us_spec_witness :
    (2100100 : Nat) < U64_MOD ∧
    ((∀ ts, (fun k => if k = 1 then some 100 else none : Nat → Option Nat) 1 = some ts →
        ts < 2100100 →
        (get_on_cpu_elapsed_time_us (fun k => if k = 1 then some 100 else none) 1
          2100100).1 = (2100100 - ts) / 1000 ∧
        (get_on_cpu_elapsed_time_us (fun k => if k = 1 then some 100 else none) 1
          2100100).2 = mapDelete (fun k => if k = 1 then some 100 else none) 1) ∧
     (∀ ts, (fun k => if k = 1 then some 100 else none : Nat → Option Nat) 1 = some ts →
        2100100 ≤ ts →
        (get_on_cpu_elapsed_time_us (fun k => if k = 1 then some 100 else none) 1
          2100100).1 = 0 ∧
        (get_on_cpu_elapsed_time_us (fun k => if k = 1 then some 100 else none) 1
          2100100).2 = mapDelete (fun k => if k = 1 then some 100 else none) 1) ∧
     ((fun k => if k = 1 then some 100 else none : Nat → Option Nat) 1 = none →
        get_on_cpu_elapsed_time_us (fun k => if k = 1 then some 100 else none) 1
          2100100 = (0, fun k => if k = 1 then some 100 else none))) :=
  ⟨by decide, take_on_cpu_us_spec (fun k => if k = 1 then some 100 else none) 1
      2100100 (by decide)⟩

/-- Claim C10: registering a tgid that is already present in the `processes`
map leaves the whole map (hence the entry, its cgroup_id, comm, and every
accumulated counter) unchanged, even when called with a different cgroup id
or comm. -/
theorem register_existing_process_unchanged
    (procs : Nat → Option process_metrics_t) (tgid cgroup_id : Nat)
    (comm : List Nat) (h : (procs tgid).isSome) :
    register_new_process_if_not_exist procs tgid cgroup_id comm = procs := by
  unfold register_new_process_if_not_exist
  cases htg : procs tgid with
  | some q => rfl
  | none => rw [htg] at h; exact absurd h (by simp)

/-- Witness for `register_existing_process_unchanged`: a map holding tgid 3
with cgroup 7, re-registered with cgroup 9 and another comm, is unchanged. -/
theorem register_existing_process_unchanged_witness :
    ((fun k => if k = 3 then
        some ({ cgroup_id := 7, pid := 3, process_run_time := 11, cpu_cycles := 12,
                cpu_instr := 13, cache_miss := 14, page_cache_hit := 15,
                vec_nr := List.replicate 10 0, comm := [65] } : process_metrics_t)
      else none) 3).isSome ∧
    register_new_process_if_not_exist
      (fun k => if k = 3 then
        some ({ cgroup_id := 7, pid := 3, process_run_time := 11, cpu_cycles := 12,
                cpu_instr := 13, cache_miss := 14, page_cache_hit := 15,
                vec_nr := List.replicate 10 0, comm := [65] } : process_metrics_t)
      else none) 3 9 [66] =
      (fun k => if k = 3 then
        some ({ cgroup_id := 7, pid := 3, process_run_time := 11, cpu_cycles := 12,
                cpu_instr := 13, cache_miss := 14, page_cache_hit := 15,
                vec_nr := List.replicate 10 0, comm := [65] } : process_metrics_t)
      else none) :=
  ⟨by decide, register_existing_process_unchanged _ 3 9 [66] (by decide)⟩

theorem run_on_cpu_cycles_reads_getLast (cpu_id : Nat) (reads : List Nat) :
    ∀ b : Nat → Option Nat, reads ≠ [] →
      run_on_cpu_cycles_reads b cpu_id reads cpu_id = reads.getLast? := by
  induction reads with
  | nil => intro b h; exact absurd rfl h
  | cons v rest ih =>
    intro b _
    cases rest with
    | nil =>
      simp [run_on_cpu_cycles_reads, get_on_cpu_cycles, mapUpdate_self]
    | cons w ws =>
      have hstep : run_on_cpu_cycles_reads b cpu_id (v :: w :: ws) =
          run_on_cpu_cycles_reads (mapUpdate b cpu_id v) cpu_id (w :: ws) := rfl
      rw [hstep, ih (mapUpdate b cpu_id v) (by simp), List.getLast?_cons_cons]

/-- Claim C3: after any non-empty sequence of successful counter reads on a
CPU, each of the three per-CPU baselines holds exactly the last read value,
independent of the computed deltas or any emission decision. -/
theorem baseline_advance_independence (b1 b2 b3 : Nat → Option Nat)
    (cpu_id : Nat) (reads : List Nat) (h : reads ≠ []) :
    run_on_cpu_cycles_reads b1 cpu_id reads cpu_id = reads.getLast? ∧
    run_on_cpu_instr_reads b2 cpu_id reads cpu_id = reads.getLast? ∧
    run_on_cpu_cache_miss_reads b3 cpu_id reads cpu_id = reads.getLast? := by
  have h2 : run_on_cpu_instr_reads b2 cpu_id reads =
      run_on_cpu_cycles_reads b2 cpu_id reads := rfl
  have h3 : run_on_cpu_cache_miss_reads b3 cpu_id reads =
      run_on_cpu_cycles_reads b3 cpu_id reads := rfl
  exact ⟨run_on_cpu_cycles_reads_getLast cpu_id reads b1 h,
         by rw [h2]; exact run_on_cpu_cycles_reads_getLast cpu_id reads b2 h,
         by rw [h3]; exact run_on_cpu_cycles_reads_getLast cpu_id reads b3 h⟩

/-- Witness for `baseline_advance_independence`: reads 5 then 3 (second
delta is 0 since 3 < 5), baselines end at 3. -/
theorem baseline_advance_independence_witness :
    ([5, 3] : List Nat) ≠ [] ∧
    (run_on_cpu_cycles_reads (fun _ => none) 0 [5, 3] 0 = ([5, 3] : List Nat).getLast? ∧
     run_on_cpu_instr_reads (fun _ => none) 0 [5, 3] 0 = ([5, 3] : List Nat).getLast? ∧
     run_on_cpu_cache_miss_reads (fun _ => none) 0 [5, 3] 0 =
       ([5, 3] : List Nat).getLast?) :=
  ⟨by decide,
   baseline_advance_independence (fun _ => none) (fun _ => none) (fun _ => none)
     0 [5, 3] (by decide)⟩

/-- Counterexample to the {2,3,4} soft-IRQ filter: vector 5 is outside
{NET_TX, NET_RX, BLOCK}, yet the handler records it — the registered
process's `vec_nr[5]` goes from 0 to 1. -/
theorem irq_vector_five_recorded :
    kepler_irq_trace
      (fun k => if k = 3 then
        some ({ cgroup_id := 7, pid := 3, process_run_time := 0, cpu_cycles := 0,
                cpu_instr := 0, cache_miss := 0, page_cache_hit := 0,
                vec_nr := List.replicate 10 0, comm := [] } : process_metrics_t)
      else none) 3 5 3 =
      some ({ cgroup_id := 7, pid := 3, process_run_time := 0, cpu_cycles := 0,
              cpu_instr := 0, cache_miss := 0, page_cache_hit := 0,
              vec_nr := [0, 0, 0, 0, 0, 1, 0, 0, 0, 0], comm := [] } :
            process_metrics_t) ∧
    kepler_irq_trace
      (fun k => if k = 3 then
        some ({ cgroup_id := 7, pid := 3, process_run_time := 0, cpu_cycles := 0,
                cpu_instr := 0, cache_miss := 0, page_cache_hit := 0,
                vec_nr := List.replicate 10 0, comm := [] } : process_metrics_t)
      else none) 3 5 3 ≠
      (fun k => if k = 3 then
        some ({ cgroup_id := 7, pid := 3, process_run_time := 0, cpu_cycles := 0,
                cpu_instr := 0, cache_miss := 0, page_cache_hit := 0,
                vec_nr := List.replicate 10 0, comm := [] } : process_metrics_t)
      else none) 3 := by
  refine ⟨by decide, by decide⟩

/-- Amended claim: the soft-IRQ handler records an event (increments the
per-process `vec_nr[vec]`, u16 arithmetic) exactly when the current tgid is
registered in the `processes` map and `vec < 10`; vectors ≥ 10 and
unregistered processes cause no change at all.  There is no {2,3,4}
filtering. -/
theorem kepler_irq_trace_spec (procs : Nat → Option process_metrics_t)
    (tgid vec : Nat) :
    (∀ pm, procs tgid = some pm → vec < 10 →
        kepler_irq_trace procs tgid vec tgid =
          some { pm with
                 vec_nr := pm.vec_nr.set vec ((pm.vec_nr.getD vec 0 + 1) % U16_MOD) } ∧
        ∀ k, k ≠ tgid → kepler_irq_trace procs tgid vec k = procs k) ∧
    (∀ pm, procs tgid = some pm → 10 ≤ vec →
        kepler_irq_trace procs tgid vec = procs) ∧
    (procs tgid = none → kepler_irq_trace procs tgid vec = procs) := by
  refine ⟨?_, ?_, ?_⟩
  · intro pm hpm hv
    constructor
    · simp [kepler_irq_trace, hpm, hv, mapUpdate_self]
    · intro k hk
      simp [kepler_irq_trace, hpm, hv, mapUpdate_other _ _ _ _ hk]
  · intro pm hpm hv
    simp [kepler_irq_trace, hpm, Nat.not_lt.mpr hv]
  · intro hpm
    simp [kepler_irq_trace, hpm]

/-- Witness for `kepler_irq_trace_spec` at tgid 3, vec 5, with a registered
process. -/
theorem kepler_irq_trace_spec_witness :
    (fun k => if k = 3 then
        some ({ cgroup_id := 7, pid := 3, process_run_time := 0, cpu_cycles := 0,
                cpu_instr := 0, cache_miss := 0, page_cache_hit := 0,
                vec_nr := List.replicate 10 0, comm := [] } : process_metrics_t)
      else none) 3 =
      some ({ cgroup_id := 7, pid := 3, process_run_time := 0, cpu_cycles := 0,
              cpu_instr := 0, cache_miss := 0, page_cache_hit := 0,
              vec_nr := List.replicate 10 0, comm := [] } : process_metrics_t) ∧
    (5 : Nat) < 10 ∧
    kepler_irq_trace
      (fun k => if k = 3 then
        some ({ cgroup_id := 7, pid := 3, process_run_time := 0, cpu_cycles := 0,
                cpu_instr := 0, cache_miss := 0, page_cache_hit := 0,
                vec_nr := List.replicate 10 0, comm := [] } : process_metrics_t)
      else none) 3 5 3 =
      some { ({ cgroup_id := 7, pid := 3, process_run_time := 0, cpu_cycles := 0,
                cpu_instr := 0, cache_miss := 0, page_cache_hit := 0,
                vec_nr := List.replicate 10 0, comm := [] } : process_metrics_t) with
             vec_nr := (List.replicate 10 0).set 5
               (((List.replicate 10 0).getD 5 0 + 1) % U16_MOD) } := by
  refine ⟨by decide, by decide, ?_⟩
  exact (((kepler_irq_trace_spec
    (fun k => if k = 3 then
        some ({ cgroup_id := 7, pid := 3, process_run_time := 0, cpu_cycles := 0,
                cpu_instr := 0, cache_miss := 0, page_cache_hit := 0,
                vec_nr := List.replicate 10 0, comm := [] } : process_metrics_t)
      else none) 3 5).1 _ (by decide) (by decide)).1)

theorem take_seq_absent (tid : Nat) (nows : List Nat) :
    ∀ m : Nat → Option Nat, m tid = none →
      take_seq m tid nows = (List.replicate nows.length 0, m) := by
  induction nows with
  | nil => intro m _; rfl
  | cons now rest ih =>
    intro m hm
    have hr : get_on_cpu_elapsed_time_us m tid now = (0, m) := by
      simp [get_on_cpu_elapsed_time_us, hm]
    simp [take_seq, hr, ih m hm, List.replicate_succ]

/-- Claim C6: once a `get_on_cpu_elapsed_time_us` call for a tid has found
and consumed the entry, every further call for the same tid (with no
intervening insertion) returns 0 and the entry stays absent, so no on-CPU
interval's duration can be attributed twice. -/
theorem at_most_once_attribution (m : Nat → Option Nat) (tid ts now1 : Nat)
    (nows : List Nat) (h : m tid = some ts) :
    (take_seq ((get_on_cpu_elapsed_time_us m tid now1).2) tid nows).1 =
      List.replicate nows.length 0 ∧
    (take_seq ((get_on_cpu_elapsed_time_us m tid now1).2) tid nows).2 tid = none := by
  have h2 : (get_on_cpu_elapsed_time_us m tid now1).2 = mapDelete m tid := by
    simp [get_on_cpu_elapsed_time_us, h]
  have habs : (get_on_cpu_elapsed_time_us m tid now1).2 tid = none := by
    rw [h2]; exact mapDelete_self m tid
  have hseq := take_seq_absent tid nows _ habs
  rw [hseq]
  exact ⟨rfl, habs⟩

/-- Witness for `at_most_once_attribution`: map `{1 ↦ 5}`, first take at
now = 2000, three further takes all yield 0. -/
theorem at_most_once_attribution_witness :
    (fun k => if k = 1 then some 5 else none : Nat → Option Nat) 1 = some 5 ∧
    ((take_seq ((get_on_cpu_elapsed_time_us
          (fun k => if k = 1 then some 5 else none) 1 2000).2) 1
        [3000, 4000, 5000]).1 = List.replicate ([3000, 4000, 5000] : List Nat).length 0 ∧
     (take_seq ((get_on_cpu_elapsed_time_us
          (fun k => if k = 1 then some 5 else none) 1 2000).2) 1
        [3000, 4000, 5000]).2 1 = none) :=
  ⟨by decide,
   at_most_once_attribution (fun k => if k = 1 then some 5 else none) 1 5 2000
     [3000, 4000, 5000] (by decide)⟩

/-- Counterexample to the 72-byte record claim: the record type shared with
user space, `process_metrics_t`, is 96 bytes, not 72. -/
theorem process_metrics_size_not_72 :
    process_metrics_size = 96 ∧ process_metrics_size ≠ 72 := by
  refine ⟨by decide, by decide⟩

/-- Amended claim: every record delivered to user space (a value of the
`processes` map) has the fixed 96-byte `process_metrics_t` layout —
cgroup_id@0, pid@8, process_run_time@16, cpu_cycles@24, cpu_instr@32,
cache_miss@40, page_cache_hit@48, vec_nr[10]@56, comm[16]@76 — identical
for all writers, so the consumer may decode purely by offset; there are no
event variants. -/
theorem process_metrics_layout :
    process_metrics_offsets = [0, 8, 16, 24, 32, 40, 48, 56, 76] ∧
    process_metrics_size = 96 := by
  refine ⟨by decide, by decide⟩

theorem sched_switch_preserves_prev_metrics (SAMPLE_RATE : Nat) (s : BpfState)
    (prev_pid next_pid prev_tgid curr_ts cpu_id : Nat)
    (read_cycles read_instr read_cache : Option Nat)
    (curr_tgid cgroup_id : Nat) (comm : List Nat) (pm : process_metrics_t)
    (hpm : s.processes prev_tgid = some pm)
    (hrt : (get_on_cpu_elapsed_time_us s.pid_time_map prev_pid curr_ts).1 = 0) :
    (kepler_sched_switch_trace SAMPLE_RATE s prev_pid next_pid prev_tgid curr_ts
       cpu_id read_cycles read_instr read_cache curr_tgid cgroup_id comm).processes
      prev_tgid = some pm := by
  simp only [kepler_sched_switch_trace, collect_metrics_and_reset_counters, hrt,
    gt_iff_lt, Nat.lt_irrefl, if_false]
  split
  · exact hpm
  · split <;> exact register_preserves_some _ _ _ _ _ _ hpm

theorem sched_switch_baselines_advance (SAMPLE_RATE : Nat) (s : BpfState)
    (prev_pid next_pid prev_tgid curr_ts cpu_id : Nat) (vc vi vm : Nat)
    (curr_tgid cgroup_id : Nat) (comm : List Nat) :
    (kepler_sched_switch_trace SAMPLE_RATE s prev_pid next_pid prev_tgid curr_ts
       cpu_id (some vc) (some vi) (some vm) curr_tgid cgroup_id comm).cpu_cycles
      cpu_id = some vc ∧
    (kepler_sched_switch_trace SAMPLE_RATE s prev_pid next_pid prev_tgid curr_ts
       cpu_id (some vc) (some vi) (some vm) curr_tgid cgroup_id
       comm).cpu_instructions cpu_id = some vi ∧
    (kepler_sched_switch_trace SAMPLE_RATE s prev_pid next_pid prev_tgid curr_ts
       cpu_id (some vc) (some vi) (some vm) curr_tgid cgroup_id comm).cache_miss
      cpu_id = some vm := by
  simp only [kepler_sched_switch_trace, collect_metrics_and_reset_counters,
    get_on_cpu_cycles, get_on_cpu_instr, get_on_cpu_cache_miss]
  refine ⟨?_, ?_, ?_⟩ <;> (repeat' split) <;> simp [mapUpdate_self]

/-- Claim C5: when the measured on-CPU duration of the departing thread is
0, the departing tgid's accumulated metrics entry is exactly the same after
the handler as before (no run time, cycles, instructions or cache misses are
attributed), while the per-CPU baselines still advance to the read values. -/
theorem sched_switch_zero_duration_no_attribution (SAMPLE_RATE : Nat)
    (s : BpfState)
    (prev_pid next_pid prev_tgid curr_ts cpu_id vc vi vm curr_tgid cgroup_id : Nat)
    (comm : List Nat) (pm : process_metrics_t)
    (hpm : s.processes prev_tgid = some pm)
    (hrt : (get_on_cpu_elapsed_time_us s.pid_time_map prev_pid curr_ts).1 = 0) :
    (kepler_sched_switch_trace SAMPLE_RATE s prev_pid next_pid prev_tgid curr_ts
       cpu_id (some vc) (some vi) (some vm) curr_tgid cgroup_id comm).processes
      prev_tgid = some pm ∧
    (kepler_sched_switch_trace SAMPLE_RATE s prev_pid next_pid prev_tgid curr_ts
       cpu_id (some vc) (some vi) (some vm) curr_tgid cgroup_id comm).cpu_cycles
      cpu_id = some vc ∧
    (kepler_sched_switch_trace SAMPLE_RATE s prev_pid next_pid prev_tgid curr_ts
       cpu_id (some vc) (some vi) (some vm) curr_tgid cgroup_id
       comm).cpu_instructions cpu_id = some vi ∧
    (kepler_sched_switch_trace SAMPLE_RATE s prev_pid next_pid prev_tgid curr_ts
       cpu_id (some vc) (some vi) (some vm) curr_tgid cgroup_id comm).cache_miss
      cpu_id = some vm :=
  ⟨sched_switch_preserves_prev_metrics SAMPLE_RATE s prev_pid next_pid prev_tgid
     curr_ts cpu_id (some vc) (some vi) (some vm) curr_tgid cgroup_id comm pm
     hpm hrt,
   sched_switch_baselines_advance SAMPLE_RATE s prev_pid next_pid prev_tgid
     curr_ts cpu_id vc vi vm curr_tgid cgroup_id comm⟩

/-- Witness for `sched_switch_zero_duration_no_attribution`: a clock anomaly
(stored timestamp 9000, now 8000) gives duration 0; the entry of tgid 4 is
untouched and the baselines land on 500/900/10. -/
theorem sched_switch_zero_duration_no_attribution_witness :
    (⟨fun k => if k = 4 then
         some ({ cgroup_id := 7, pid := 4, process_run_time := 100, cpu_cycles := 200,
                 cpu_instr := 300, cache_miss := 400, page_cache_hit := 0,
                 vec_nr := List.replicate 10 0, comm := [] } : process_metrics_t)
       else none,
      fun k => if k = 1 then some 9000 else none,
      fun _ => some 100, fun _ => some 200, fun _ => some 0, 0⟩ :
      BpfState).processes 4 =
      some ({ cgroup_id := 7, pid := 4, process_run_time := 100, cpu_cycles := 200,
              cpu_instr := 300, cache_miss := 400, page_cache_hit := 0,
              vec_nr := List.replicate 10 0, comm := [] } : process_metrics_t) ∧
    (get_on_cpu_elapsed_time_us
      (⟨fun k => if k = 4 then
           some ({ cgroup_id := 7, pid := 4, process_run_time := 100, cpu_cycles := 200,
                   cpu_instr := 300, cache_miss := 400, page_cache_hit := 0,
                   vec_nr := List.replicate 10 0, comm := [] } : process_metrics_t)
         else none,
        fun k => if k = 1 then some 9000 else none,
        fun _ => some 100, fun _ => some 200, fun _ => some 0, 0⟩ :
        BpfState).pid_time_map 1 8000).1 = 0 ∧
    ((kepler_sched_switch_trace 0
      (⟨fun k => if k = 4 then
           some ({ cgroup_id := 7, pid := 4, process_run_time := 100, cpu_cycles := 200,
                   cpu_instr := 300, cache_miss := 400, page_cache_hit := 0,
                   vec_nr := List.replicate 10 0, comm := [] } : process_metrics_t)
         else none,
        fun k => if k = 1 then some 9000 else none,
        fun _ => some 100, fun _ => some 200, fun _ => some 0, 0⟩ : BpfState)
      1 2 4 8000 3 (some 500) (some 900) (some 10) 4 7 []).processes 4 =
      some ({ cgroup_id := 7, pid := 4, process_run_time := 100, cpu_cycles := 200,
              cpu_instr := 300, cache_miss := 400, page_cache_hit := 0,
              vec_nr := List.replicate 10 0, comm := [] } : process_metrics_t) ∧
     (kepler_sched_switch_trace 0
      (⟨fun k => if k = 4 then
           some ({ cgroup_id := 7, pid := 4, process_run_time := 100, cpu_cycles := 200,
                   cpu_instr := 300, cache_miss := 400, page_cache_hit := 0,
                   vec_nr := List.replicate 10 0, comm := [] } : process_metrics_t)
         else none,
        fun k => if k = 1 then some 9000 else none,
        fun _ => some 100, fun _ => some 200, fun _ => some 0, 0⟩ : BpfState)
      1 2 4 8000 3 (some 500) (some 900) (some 10) 4 7 []).cpu_cycles 3 = some 500 ∧
     (kepler_sched_switch_trace 0
      (⟨fun k => if k = 4 then
           some ({ cgroup_id := 7, pid := 4, process_run_time := 100, cpu_cycles := 200,
                   cpu_instr := 300, cache_miss := 400, page_cache_hit := 0,
                   vec_nr := List.replicate 10 0, comm := [] } : process_metrics_t)
         else none,
        fun k => if k = 1 then some 9000 else none,
        fun _ => some 100, fun _ => some 200, fun _ => some 0, 0⟩ : BpfState)
      1 2 4 8000 3 (some 500) (some 900) (some 10) 4 7 []).cpu_instructions 3 =
       some 900 ∧
     (kepler_sched_switch_trace 0
      (⟨fun k => if k = 4 then
           some ({ cgroup_id := 7, pid := 4, process_run_time := 100, cpu_cycles := 200,
                   cpu_instr := 300, cache_miss := 400, page_cache_hit := 0,
                   vec_nr := List.replicate 10 0, comm := [] } : process_metrics_t)
         else none,
        fun k => if k = 1 then some 9000 else none,
        fun _ => some 100, fun _ => some 200, fun _ => some 0, 0⟩ : BpfState)
      1 2 4 8000 3 (some 500) (some 900) (some 10) 4 7 []).cache_miss 3 = some 10) :=
  ⟨by decide, by decide,
   sched_switch_zero_duration_no_attribution 0 _ 1 2 4 8000 3 500 900 10 4 7 [] _
     (by decide) (by decide)⟩

theorem sched_switch_skip_path (SAMPLE_RATE : Nat) (s : BpfState)
    (prev_pid next_pid prev_tgid curr_ts cpu_id : Nat)
    (read_cycles read_instr read_cache : Option Nat)
    (curr_tgid cgroup_id : Nat) (comm : List Nat)
    (hsr : 0 < SAMPLE_RATE) (hc : 0 < s.counter_sched_switch) :
    kepler_sched_switch_trace SAMPLE_RATE s prev_pid next_pid prev_tgid curr_ts
      cpu_id read_cycles read_instr read_cache curr_tgid cgroup_id comm =
      { processes := s.processes,
        pid_time_map := (get_on_cpu_elapsed_time_us s.pid_time_map prev_pid curr_ts).2,
        cpu_cycles := (get_on_cpu_cycles s.cpu_cycles cpu_id read_cycles).2,
        cpu_instructions := (get_on_cpu_instr s.cpu_instructions cpu_id read_instr).2,
        cache_miss := (get_on_cpu_cache_miss s.cache_miss cpu_id read_cache).2,
        counter_sched_switch := s.counter_sched_switch - 1 } := by
  simp only [kepler_sched_switch_trace, collect_metrics_and_reset_counters]
  rw [if_pos ⟨hsr, hc⟩]

/-- Counterexample to the claim that with SAMPLE_RATE > 0 every sched_switch
handling records the arriving thread's on-CPU start timestamp: with
SAMPLE_RATE = 1 and counter_sched_switch = 1 the handling is skipped, and
the arriving tid 2 has no timestamp entry afterwards. -/
theorem sched_switch_skip_drops_next_timestamp :
    (kepler_sched_switch_trace 1
      (⟨fun _ => none, fun _ => none, fun _ => none, fun _ => none,
        fun _ => none, 1⟩ : BpfState)
      1 2 1 5000 0 (some 10) (some 20) (some 30) 1 7 []).pid_time_map 2 = none := by
  decide

/-- Amended claim C7: when SAMPLE_RATE > 0, every sched_switch handling —
including the skipped, non-attributing ones — advances the per-CPU counter
baselines and consumes the departing thread's timestamp entry; but a skipped
handling changes nothing else (no attribution, no registration), and in
particular the arriving thread's on-CPU start timestamp is recorded only on
the non-skipped handlings. -/
theorem sampling_baselines_and_timestamp_spec (SAMPLE_RATE : Nat) (s : BpfState)
    (prev_pid next_pid prev_tgid curr_ts cpu_id vc vi vm curr_tgid cgroup_id : Nat)
    (comm : List Nat) (hsr : 0 < SAMPLE_RATE) :
    ((kepler_sched_switch_trace SAMPLE_RATE s prev_pid next_pid prev_tgid curr_ts
        cpu_id (some vc) (some vi) (some vm) curr_tgid cgroup_id comm).cpu_cycles
        cpu_id = some vc ∧
     (kepler_sched_switch_trace SAMPLE_RATE s prev_pid next_pid prev_tgid curr_ts
        cpu_id (some vc) (some vi) (some vm) curr_tgid cgroup_id
        comm).cpu_instructions cpu_id = some vi ∧
     (kepler_sched_switch_trace SAMPLE_RATE s prev_pid next_pid prev_tgid curr_ts
        cpu_id (some vc) (some vi) (some vm) curr_tgid cgroup_id comm).cache_miss
        cpu_id = some vm) ∧
    (0 < s.counter_sched_switch →
       kepler_sched_switch_trace SAMPLE_RATE s prev_pid next_pid prev_tgid curr_ts
         cpu_id (some vc) (some vi) (some vm) curr_tgid cgroup_id comm =
         { processes := s.processes,
           pid_time_map :=
             (get_on_cpu_elapsed_time_us s.pid_time_map prev_pid curr_ts).2,
           cpu_cycles := mapUpdate s.cpu_cycles cpu_id vc,
           cpu_instructions := mapUpdate s.cpu_instructions cpu_id vi,
           cache_miss := mapUpdate s.cache_miss cpu_id vm,
           counter_sched_switch := s.counter_sched_switch - 1 }) ∧
    (s.counter_sched_switch = 0 →
       (kepler_sched_switch_trace SAMPLE_RATE s prev_pid next_pid prev_tgid curr_ts
          cpu_id (some vc) (some vi) (some vm) curr_tgid cgroup_id
          comm).pid_time_map next_pid = some curr_ts) := by
  refine ⟨sched_switch_baselines_advance SAMPLE_RATE s prev_pid next_pid prev_tgid
            curr_ts cpu_id vc vi vm curr_tgid cgroup_id comm, ?_, ?_⟩
  · intro hc
    exact sched_switch_skip_path SAMPLE_RATE s prev_pid next_pid prev_tgid curr_ts
      cpu_id (some vc) (some vi) (some vm) curr_tgid cgroup_id comm hsr hc
  · intro hc
    simp only [kepler_sched_switch_trace, collect_metrics_and_reset_counters]
    split
    · next hyes =>
      have h2 : 0 < s.counter_sched_switch := hyes.2
      rw [hc] at h2
      exact absurd h2 (lt_irrefl 0)
    · (repeat' split) <;> simp [mapUpdate_self]

/-- Witness for `sampling_baselines_and_timestamp_spec`: SAMPLE_RATE = 3 and
a skipped handling (counter_sched_switch = 2). -/
theorem sampling_baselines_and_timestamp_spec_witness :
    (0 : Nat) < 3 ∧
    (((kepler_sched_switch_trace 3
        (⟨fun _ => none, fun k => if k = 1 then some 1000 else none,
          fun _ => none, fun _ => none, fun _ => none, 2⟩ : BpfState)
        1 2 1 5000 0 (some 10) (some 20) (some 30) 1 7 []).cpu_cycles 0 = some 10 ∧
      (kepler_sched_switch_trace 3
        (⟨fun _ => none, fun k => if k = 1 then some 1000 else none,
          fun _ => none, fun _ => none, fun _ => none, 2⟩ : BpfState)
        1 2 1 5000 0 (some 10) (some 20) (some 30) 1 7 []).cpu_instructions 0 =
        some 20 ∧
      (kepler_sched_switch_trace 3
        (⟨fun _ => none, fun k => if k = 1 then some 1000 else none,
          fun _ => none, fun _ => none, fun _ => none, 2⟩ : BpfState)
        1 2 1 5000 0 (some 10) (some 20) (some 30) 1 7 []).cache_miss 0 = some 30) ∧
     (0 < (⟨fun _ => none, fun k => if k = 1 then some 1000 else none,
           fun _ => none, fun _ => none, fun _ => none, 2⟩ :
           BpfState).counter_sched_switch →
        kepler_sched_switch_trace 3
          (⟨fun _ => none, fun k => if k = 1 then some 1000 else none,
            fun _ => none, fun _ => none, fun _ => none, 2⟩ : BpfState)
          1 2 1 5000 0 (some 10) (some 20) (some 30) 1 7 [] =
          { processes := (⟨fun _ => none, fun k => if k = 1 then some 1000 else none,
              fun _ => none, fun _ => none, fun _ => none, 2⟩ : BpfState).processes,
            pid_time_map := (get_on_cpu_elapsed_time_us
              (⟨fun _ => none, fun k => if k = 1 then some 1000 else none,
                fun _ => none, fun _ => none, fun _ => none, 2⟩ :
                BpfState).pid_time_map 1 5000).2,
            cpu_cycles := mapUpdate (⟨fun _ => none,
              fun k => if k = 1 then some 1000 else none,
              fun _ => none, fun _ => none, fun _ => none, 2⟩ :
              BpfState).cpu_cycles 0 10,
            cpu_instructions := mapUpdate (⟨fun _ => none,
              fun k => if k = 1 then some 1000 else none,
              fun _ => none, fun _ => none, fun _ => none, 2⟩ :
              BpfState).cpu_instructions 0 20,
            cache_miss := mapUpdate (⟨fun _ => none,
              fun k => if k = 1 then some 1000 else none,
              fun _ => none, fun _ => none, fun _ => none, 2⟩ :
              BpfState).cache_miss 0 30,
            counter_sched_switch := (⟨fun _ => none,
              fun k => if k = 1 then some 1000 else none,
              fun _ => none, fun _ => none, fun _ => none, 2⟩ :
              BpfState).counter_sched_switch - 1 }) ∧
     ((⟨fun _ => none, fun k => if k = 1 then some 1000 else none,
        fun _ => none, fun _ => none, fun _ => none, 2⟩ :
        BpfState).counter_sched_switch = 0 →
        (kepler_sched_switch_trace 3
          (⟨fun _ => none, fun k => if k = 1 then some 1000 else none,
            fun _ => none, fun _ => none, fun _ => none, 2⟩ : BpfState)
          1 2 1 5000 0 (some 10) (some 20) (some 30) 1 7 []).pid_time_map 2 =
          some 5000)) :=
  ⟨by decide,
   sampling_baselines_and_timestamp_spec 3
     (⟨fun _ => none, fun k => if k = 1 then some 1000 else none,
       fun _ => none, fun _ => none, fun _ => none, 2⟩ : BpfState)
     1 2 1 5000 0 10 20 30 1 7 [] (by decide)⟩

/-- Claim C9: a sub-microsecond on-CPU interval (0 < now - since < 1000 ns)
yields elapsed time 0 by integer truncation while the timestamp entry is
still deleted, and consequently the handler attributes nothing to the
departing tgid: the interval is permanently lost. -/
theorem sub_microsecond_interval_lost (s : BpfState)
    (prev_pid next_pid prev_tgid curr_ts cpu_id ts vc vi vm curr_tgid cgroup_id : Nat)
    (comm : List Nat) (pm : process_metrics_t)
    (hts : s.pid_time_map prev_pid = some ts)
    (h1 : ts < curr_ts) (h2 : curr_ts < ts + 1000)
    (hpm : s.processes prev_tgid = some pm) :
    (get_on_cpu_elapsed_time_us s.pid_time_map prev_pid curr_ts).1 = 0 ∧
    (get_on_cpu_elapsed_time_us s.pid_time_map prev_pid curr_ts).2 prev_pid = none ∧
    (kepler_sched_switch_trace 0 s prev_pid next_pid prev_tgid curr_ts cpu_id
       (some vc) (some vi) (some vm) curr_tgid cgroup_id comm).processes prev_tgid
      = some pm := by
  have hsub : curr_ts - ts < 1000 := by omega
  have hU : (1000 : Nat) < U64_MOD := by decide
  have hrt : (get_on_cpu_elapsed_time_us s.pid_time_map prev_pid curr_ts).1 = 0 := by
    simp [get_on_cpu_elapsed_time_us, hts, calc_delta, h1,
      Nat.mod_eq_of_lt (hsub.trans hU), Nat.div_eq_of_lt hsub]
  refine ⟨hrt, ?_, ?_⟩
  · simp [get_on_cpu_elapsed_time_us, hts, mapDelete_self]
  · exact sched_switch_preserves_prev_metrics 0 s prev_pid next_pid prev_tgid
      curr_ts cpu_id (some vc) (some vi) (some vm) curr_tgid cgroup_id comm pm
      hpm hrt

/-- Witness for `sub_microsecond_interval_lost`: the thread ran from ts 9000
to 9500 (500 ns): elapsed time truncates to 0, the entry is gone, tgid 4's
metrics are untouched. -/
theorem sub_microsecond_interval_lost_witness :
    (⟨fun k => if k = 4 then
         some ({ cgroup_id := 7, pid := 4, process_run_time := 100, cpu_cycles := 200,
                 cpu_instr := 300, cache_miss := 400, page_cache_hit := 0,
                 vec_nr := List.replicate 10 0, comm := [] } : process_metrics_t)
       else none,
      fun k => if k = 1 then some 9000 else none,
      fun _ => some 100, fun _ => some 200, fun _ => some 0, 0⟩ :
      BpfState).pid_time_map 1 = some 9000 ∧
    (9000 : Nat) < 9500 ∧ (9500 : Nat) < 9000 + 1000 ∧
    ((get_on_cpu_elapsed_time_us
       (⟨fun k => if k = 4 then
            some ({ cgroup_id := 7, pid := 4, process_run_time := 100,
                    cpu_cycles := 200, cpu_instr := 300, cache_miss := 400,
                    page_cache_hit := 0, vec_nr := List.replicate 10 0,
                    comm := [] } : process_metrics_t)
          else none,
         fun k => if k = 1 then some 9000 else none,
         fun _ => some 100, fun _ => some 200, fun _ => some 0, 0⟩ :
         BpfState).pid_time_map 1 9500).1 = 0 ∧
     (get_on_cpu_elapsed_time_us
       (⟨fun k => if k = 4 then
            some ({ cgroup_id := 7, pid := 4, process_run_time := 100,
                    cpu_cycles := 200, cpu_instr := 300, cache_miss := 400,
                    page_cache_hit := 0, vec_nr := List.replicate 10 0,
                    comm := [] } : process_metrics_t)
          else none,
         fun k => if k = 1 then some 9000 else none,
         fun _ => some 100, fun _ => some 200, fun _ => some 0, 0⟩ :
         BpfState).pid_time_map 1 9500).2 1 = none ∧
     (kepler_sched_switch_trace 0
       (⟨fun k => if k = 4 then
            some ({ cgroup_id := 7, pid := 4, process_run_time := 100,
                    cpu_cycles := 200, cpu_instr := 300, cache_miss := 400,
                    page_cache_hit := 0, vec_nr := List.replicate 10 0,
                    comm := [] } : process_metrics_t)
          else none,
         fun k => if k = 1 then some 9000 else none,
         fun _ => some 100, fun _ => some 200, fun _ => some 0, 0⟩ : BpfState)
       1 2 4 9500 3 (some 500) (some 900) (some 10) 4 7 []).processes 4 =
       some ({ cgroup_id := 7, pid := 4, process_run_time := 100, cpu_cycles := 200,
               cpu_instr := 300, cache_miss := 400, page_cache_hit := 0,
               vec_nr := List.replicate 10 0, comm := [] } : process_metrics_t)) :=
  ⟨by decide, by decide, by decide,
   sub_microsecond_interval_lost _ 1 2 4 9500 3 9000 500 900 10 4 7 [] _
     (by decide) (by decide) (by decide) (by decide)⟩

end Kepler
